import Mathlib

/-!
Shallow embedding of the concurrency-and-timing primitives of
`vendor/github.com/go-rod/rod/lib/utils/utils.go`: the `Sleeper` variants
(`CountSleeper`, `BackoffSleeper`), the `Retry` driver, and the
`IdleCounter` synchronization primitive.

Modelling conventions:
* Go `time.Duration` (int64 nanoseconds) is modelled as `Int`; durations in
  the claims stay far below 2^63, so wraparound never occurs and is not
  modelled.
* A `context.Context` is modelled by what the code reads from it: `ctx.Err()`,
  an `Option String` (`none` = not canceled, `some e` = canceled with error `e`).
  A Go `error` return value is likewise `Option String` (`none` = `nil`).
* A `select` racing a timer against `ctx.Done()` is resolved by an explicit
  `cancelWins : Bool` oracle; `cancelWins = true` is realizable only when the
  token is (or becomes) canceled during the wait, which the theorems carry as
  a hypothesis where it matters.
* Closures with captured mutable state (`count` in `CountSleeper`, `init` in
  `BackoffSleeper`) are modelled as explicit state passed in and returned.
-/

/-- A cancellation token, modelled by the only data the code reads from it:
`ctx.Err()`. `none` means not canceled; `some e` means canceled with error `e`. -/
abbrev Ctx := Option String

/-- One call of the closure returned by `CountSleeper(max)` (utils.go:159-172).
The closure captures `count` (starting at 0); each call first checks
`ctx.Err()` and propagates it, then returns the error `"max sleep count"` when
`count == max`, else increments `count` and returns nil.
Result: (new `count`, returned error). -/
def countSleeperCall (max : Int) (ctx : Ctx) (count : Int) : Int × Option String :=
  match ctx with
  | some e => (count, some e)
  | none =>
    if count = max then (count, some "max sleep count")
    else (count + 1, none)

/-- The captured `count` after `k` calls of a `CountSleeper(max)` closure with a
never-canceled token (`count` starts at 0 in `CountSleeper`, utils.go:160). -/
def countRunState (max : Int) : Nat → Int
  | 0 => 0
  | k + 1 => (countSleeperCall max none (countRunState max k)).1

/-- The error returned by call number `k` (0-indexed) of a `CountSleeper(max)`
closure with a never-canceled token. -/
def countRunErr (max : Int) (k : Nat) : Option String :=
  (countSleeperCall max none (countRunState max k)).2

/-- Outcome of one call of a `BackoffSleeper` closure: the captured `init`
after the call, the interval the timer was armed with when a full sleep
completed (`none` when the call returned without completing a sleep), and the
returned error. -/
structure BackoffOut where
  newInit : Int
  waited : Option Int
  err : Option String
  deriving DecidableEq, Repr

/-- One call of the closure returned by
`BackoffSleeper(init, maxInterval, algorithm)` (utils.go:184-214).
The closure captures `init` as mutable state. Each call:
* if `maxInterval <= 0`, wakes immediately returning nil (utils.go:191-193);
* otherwise `interval = algorithm(init)` when `init < maxInterval`, else
  `interval = maxInterval` (utils.go:195-200) — note the algorithm's output is
  NOT clamped to `maxInterval`;
* arms a timer for `interval` and races it against `ctx.Done()`
  (utils.go:202-210). On cancellation-win it returns `ctx.Err()` leaving
  `init` unchanged; on timer-win it stores `init = interval` and returns nil.
`cancelWins` resolves the race; `cancelWins = true` is realizable only for a
canceled token. -/
def backoffSleeperCall (algorithm : Int → Int) (maxInterval : Int) (ctx : Ctx)
    (cancelWins : Bool) (init : Int) : BackoffOut :=
  if maxInterval ≤ 0 then ⟨init, none, none⟩
  else
    let interval := if init < maxInterval then algorithm init else maxInterval
    if cancelWins then ⟨init, none, ctx⟩
    else ⟨interval, some interval, none⟩

/-- The captured `init` of a `BackoffSleeper(init₀, maxInterval, algorithm)`
closure after `n` calls with a never-canceled token (every race is a
timer-win). -/
def backoffState (algorithm : Int → Int) (maxInterval init : Int) : Nat → Int
  | 0 => init
  | n + 1 =>
    (backoffSleeperCall algorithm maxInterval none false
      (backoffState algorithm maxInterval init n)).newInit

/-- The interval slept by call number `n` (0-indexed) of a
`BackoffSleeper(init₀, maxInterval, algorithm)` closure with a never-canceled
token (`getD 0` is only a default: for `maxInterval > 0` every such call
completes a sleep and `waited` is `some _`). -/
def backoffIntervalD (algorithm : Int → Int) (maxInterval init : Int) (n : Nat) : Int :=
  ((backoffSleeperCall algorithm maxInterval none false
    (backoffState algorithm maxInterval init n)).waited).getD 0

/-- One realization of `DefaultBackoff` (utils.go:175-178):
`scale = 2 + (r - 0.5)*0.2` with the random draw `r = 0.5` (a value
`mr.Float64()` can return) gives `scale = 2.0` exactly; `float64` arithmetic
on small integers is exact, so doubling is a trace `DefaultBackoff` can
produce on every call. -/
def doubleBackoff (d : Int) : Int := 2 * d

/-- The `IdleCounter` struct (utils.go:217-222). The mutex serializes the
operations and is implicit in the sequential model; the `*time.Timer` is
modelled by whether it is currently armed. -/
structure IdleCounter where
  job : Int
  duration : Int
  tmrArmed : Bool
  deriving DecidableEq, Repr

/-- Constructor `NewIdleCounter(d)` (utils.go:225-234): the timer is created and
immediately stopped, so the fresh counter has `job = 0` with the timer
disarmed. -/
def NewIdleCounter (d : Int) : IdleCounter :=
  { job := 0, duration := d, tmrArmed := false }

/-- Method `IdleCounter.Add` (utils.go:237-243): stop the timer, increment `job`. -/
def IdleCounter.Add (c : IdleCounter) : IdleCounter :=
  { c with tmrArmed := false, job := c.job + 1 }

/-- Method `IdleCounter.Done` (utils.go:246-257): decrement `job`; if it reaches
exactly 0, (re)arm the timer for `duration`; if it went negative, panic with
"all jobs are already done" (modelled as `Except.error`). -/
def IdleCounter.Done (c : IdleCounter) : Except String IdleCounter :=
  let j := c.job - 1
  let c1 := if j = 0 then { c with job := j, tmrArmed := true } else { c with job := j }
  if j < 0 then .error "all jobs are already done" else .ok c1

/-- Method `IdleCounter.Wait` (utils.go:260-272): if `job == 0`, (re)arm the timer;
then block on `select` racing `ctx.Done()` against the timer. On
cancellation-win the timer is stopped; on timer-win the timer has fired (a
fired `time.Timer` is no longer armed). Either way `Wait` returns no value:
the Go method has no return, so the caller receives no error. -/
def IdleCounter.Wait (c : IdleCounter) (ctx : Ctx) (cancelWins : Bool) : IdleCounter :=
  let c1 := if c.job = 0 then { c with tmrArmed := true } else c
  if cancelWins then { c1 with tmrArmed := false }
  else { c1 with tmrArmed := false }

/-- An operation on an `IdleCounter`, used to describe reachable states. -/
inductive IdleOp where
  | add : IdleOp
  | doneOp : IdleOp
  | wait : Ctx → Bool → IdleOp

/-- Apply one operation to an `IdleCounter`. -/
def idleStep (c : IdleCounter) : IdleOp → Except String IdleCounter
  | .add => .ok c.Add
  | .doneOp => c.Done
  | .wait ctx cw => .ok (c.Wait ctx cw)

/-- Run a sequence of operations from a state; stops at the first panic. -/
def idleRun (c : IdleCounter) : List IdleOp → Except String IdleCounter
  | [] => .ok c
  | op :: ops =>
    match idleStep c op with
    | .ok c1 => idleRun c1 ops
    | .error e => .error e

/-- Driver `Retry(ctx, s, fn)` (utils.go:275-286): loop forever — call `fn()`; if
`stop` is true return `err` immediately; else call the sleeper, and if it
errors return that error; else loop. The unbounded `for` is modelled with
`fuel` (`none` = fuel exhausted, loop still running). The action is modelled
as a pure schedule `fn : Nat → Bool × Option String` indexed by invocation
number, the sleeper as a state machine over `σ`; `a` and `w` count action
invocations and sleeper waits so far.
Result: `some (returned error, total action invocations, total sleeper waits)`. -/
def Retry {σ : Type} (ctx : Ctx) (sleep : Ctx → σ → σ × Option String)
    (fn : Nat → Bool × Option String) : Nat → σ → Nat → Nat → Option (Option String × Nat × Nat)
  | 0, _, _, _ => none
  | fuel + 1, st, a, w =>
    let r := fn a
    if r.1 then some (r.2, a + 1, w)
    else
      let q := sleep ctx st
      match q.2 with
      | some e => some (some e, a + 1, w + 1)
      | none => Retry ctx sleep fn fuel q.1 (a + 1) (w + 1)

/-- The action schedule of the C4 scenario: `(stop=false, err=nil)` twice,
then `(stop=true, err=nil)`. -/
def fnScenario (a : Nat) : Bool × Option String :=
  if a < 2 then (false, none) else (true, none)

lemma countRunState_eq (n k : Nat) (hk : k ≤ n) : countRunState (n : Int) k = (k : Int) := by
  induction k with
  | zero => rfl
  | succ k ih =>
    have hk' : k ≤ n := Nat.le_of_succ_le hk
    have hne : (k : Int) ≠ (n : Int) := by exact_mod_cast Nat.ne_of_lt hk
    simp [countRunState, countSleeperCall, ih hk', hne]

/-- Claim C3: a CountSleeper with budget `max = n ≥ 0`, called with a never-canceled
token, returns no error on each of its first `n` calls (calls 0..n-1), and its
`(n+1)`-th call (call number `n`) returns the error "max sleep count". -/
theorem countSleeper_budget (n : Nat) :
    (∀ k, k < n → countRunErr (n : Int) k = none) ∧
    countRunErr (n : Int) n = some "max sleep count" := by
  constructor
  · intro k hk
    have hs := countRunState_eq n k (Nat.le_of_lt hk)
    have hne : (k : Int) ≠ (n : Int) := by exact_mod_cast Nat.ne_of_lt hk
    simp [countRunErr, countSleeperCall, hs, hne]
  · have hs := countRunState_eq n n le_rfl
    simp [countRunErr, countSleeperCall, hs]

/-- Witness for C3 at `n = 2`. -/
theorem countSleeper_budget_w :
    countRunErr ((2 : Nat) : Int) 1 = none ∧
    countRunErr ((2 : Nat) : Int) 2 = some "max sleep count" :=
  ⟨(countSleeper_budget 2).1 1 (by decide), (countSleeper_budget 2).2⟩

/-- Claim C10: a CountSleeper called with an already-canceled token returns the
token's error without incrementing its captured count, for every value of the
count — including when the count has already reached `max`, so cancellation
takes precedence over the budget-exhausted error. -/
theorem countSleeper_cancel_precedence (max count : Int) (e : String) :
    countSleeperCall max (some e) count = (count, some e) := rfl

/-- Claim C9: a BackoffSleeper constructed with `maxInterval ≤ 0` returns immediately
with no error on every call, for every token (canceled or not) and every race
outcome, and mutates nothing. -/
theorem backoffSleeper_degenerate (algorithm : Int → Int) (maxInterval : Int) (ctx : Ctx)
    (cancelWins : Bool) (init : Int) (h : maxInterval ≤ 0) :
    backoffSleeperCall algorithm maxInterval ctx cancelWins init = ⟨init, none, none⟩ := by
  simp [backoffSleeperCall, h]

/-- Witness for C9 with an already-canceled token. -/
theorem backoffSleeper_degenerate_w :
    backoffSleeperCall doubleBackoff 0 (some "context canceled") true 7 = ⟨7, none, none⟩ :=
  backoffSleeper_degenerate doubleBackoff 0 (some "context canceled") true 7 (by decide)

/-- Claim C8: when a BackoffSleeper call (with `maxInterval > 0`) ends because the
cancellation token won the race, it returns the token's error and leaves the
stored `init` exactly as it was before the call (and records no completed
sleep). -/
theorem backoffSleeper_cancel_frame (algorithm : Int → Int) (maxInterval init : Int)
    (e : String) (h : 0 < maxInterval) :
    backoffSleeperCall algorithm maxInterval (some e) true init = ⟨init, none, some e⟩ := by
  simp [backoffSleeperCall, h.not_le]

/-- Witness for C8. -/
theorem backoffSleeper_cancel_frame_w :
    backoffSleeperCall doubleBackoff 5 (some "context canceled") true 3 =
      ⟨3, none, some "context canceled"⟩ :=
  backoffSleeper_cancel_frame doubleBackoff 5 3 "context canceled" (by decide)

/-- Claim C5: calling IdleCounter.Done with `job = 0` (no outstanding Add, the count
would go negative) panics with "all jobs are already done" instead of silently
continuing. -/
theorem idleCounter_done_underflow (c : IdleCounter) (h : c.job = 0) :
    c.Done = .error "all jobs are already done" := by
  simp [IdleCounter.Done, h]

/-- Witness for C5: Done on a fresh counter. -/
theorem idleCounter_done_underflow_w :
    (NewIdleCounter 5).Done = .error "all jobs are already done" :=
  idleCounter_done_underflow (NewIdleCounter 5) rfl

/-- Claim C4: the Retry loop invokes the action; if it returns `stop = true` Retry
returns the action's error unchanged at once, without calling the sleeper that
iteration; if `stop = false` it calls the sleeper and returns the sleeper's
error when there is one. In the concrete scenario — action returning
`(false, nil)` twice then `(true, nil)`, CountSleeper with `max = 5` — Retry
returns nil after exactly 3 action invocations and 2 sleeper waits. -/
theorem retry_loop_shape :
    (∀ (σ : Type) (ctx : Ctx) (sleep : Ctx → σ → σ × Option String)
        (fn : Nat → Bool × Option String) (fuel : Nat) (st : σ) (a w : Nat),
        (fn a).1 = true →
        Retry ctx sleep fn (fuel + 1) st a w = some ((fn a).2, a + 1, w)) ∧
    (∀ (σ : Type) (ctx : Ctx) (sleep : Ctx → σ → σ × Option String)
        (fn : Nat → Bool × Option String) (fuel : Nat) (st : σ) (a w : Nat) (e : String),
        (fn a).1 = false → (sleep ctx st).2 = some e →
        Retry ctx sleep fn (fuel + 1) st a w = some (some e, a + 1, w + 1)) ∧
    Retry none (countSleeperCall 5) fnScenario 10 0 0 0 = some (none, 3, 2) := by
  refine ⟨?_, ?_, ?_⟩
  · intro σ ctx sleep fn fuel st a w h
    simp [Retry, h]
  · intro σ ctx sleep fn fuel st a w e h1 h2
    simp [Retry, h1, h2]
  · rfl

/-- Witness for C4: the stop-exit and the sleeper-error exit at concrete
inputs (a CountSleeper whose budget is already exhausted for the latter). -/
theorem retry_loop_shape_w :
    Retry none (countSleeperCall 5) fnScenario 1 0 2 2 = some (none, 3, 2) ∧
    Retry none (countSleeperCall 5) fnScenario 1 5 0 0 =
      some (some "max sleep count", 1, 1) :=
  ⟨retry_loop_shape.1 Int none (countSleeperCall 5) fnScenario 0 0 2 2 rfl,
   retry_loop_shape.2.1 Int none (countSleeperCall 5) fnScenario 0 5 0 0
     "max sleep count" rfl rfl⟩

lemma backoffState_succ (algorithm : Int → Int) (maxInterval init : Int) (n : Nat)
    (h : 0 < maxInterval) :
    backoffState algorithm maxInterval init (n + 1) =
      (if backoffState algorithm maxInterval init n < maxInterval
        then algorithm (backoffState algorithm maxInterval init n) else maxInterval) := by
  simp [backoffState, backoffSleeperCall, h.not_le]

lemma backoffIntervalD_eq (algorithm : Int → Int) (maxInterval init : Int) (n : Nat)
    (h : 0 < maxInterval) :
    backoffIntervalD algorithm maxInterval init n =
      (if backoffState algorithm maxInterval init n < maxInterval
        then algorithm (backoffState algorithm maxInterval init n) else maxInterval) := by
  unfold backoffIntervalD backoffSleeperCall
  rw [if_neg h.not_le]
  split <;> rfl

lemma backoffState_succ_eq_interval (algorithm : Int → Int) (maxInterval init : Int) (n : Nat)
    (h : 0 < maxInterval) :
    backoffState algorithm maxInterval init (n + 1) =
      backoffIntervalD algorithm maxInterval init n := by
  rw [backoffState_succ algorithm maxInterval init n h,
    backoffIntervalD_eq algorithm maxInterval init n h]

lemma backoffState_nonneg (algorithm : Int → Int) (maxInterval init : Int)
    (halg : ∀ d, 0 ≤ d → d ≤ algorithm d) (h0 : 0 ≤ init) (hmax : 0 < maxInterval)
    (n : Nat) : 0 ≤ backoffState algorithm maxInterval init n := by
  induction n with
  | zero => exact h0
  | succ n ih =>
    rw [backoffState_succ algorithm maxInterval init n hmax]
    split
    · exact le_trans ih (halg _ ih)
    · exact hmax.le

/-- Claim C1 counterexample: with `initialInterval = 3 ≤ maxInterval = 5` and
`maxInterval > 0`, under the DefaultBackoff realization that doubles (random
draw 0.5), a never-canceled run waits 6 on call 0 — exceeding `maxInterval` —
and then 5 on call 1, a decrease. So the waited sequence is neither bounded by
`maxInterval` nor non-decreasing: the algorithm's output is not clamped. -/
theorem backoff_intervals_claim_false :
    (3 : Int) ≤ 5 ∧ (0 : Int) < 5 ∧
    backoffIntervalD doubleBackoff 5 3 0 = 6 ∧
    ¬ backoffIntervalD doubleBackoff 5 3 0 ≤ 5 ∧
    backoffIntervalD doubleBackoff 5 3 1 < backoffIntervalD doubleBackoff 5 3 0 := by
  decide

/-- Claim C1 (amended): for a never-canceled run with `0 ≤ initialInterval ≤
maxInterval`, `maxInterval > 0`, and a growing algorithm (as DefaultBackoff is:
scale ≥ 1.9), the waited sequence is non-decreasing as long as it has stayed
within `maxInterval`, and once a waited interval reaches or exceeds
`maxInterval` every subsequent interval equals `maxInterval` exactly — at most
one interval (the unclamped overshoot) can exceed `maxInterval`. -/
theorem backoff_intervals_bounded_monotone (algorithm : Int → Int) (maxInterval init : Int)
    (halg : ∀ d, 0 ≤ d → d ≤ algorithm d) (h0 : 0 ≤ init) (hle : init ≤ maxInterval)
    (hmax : 0 < maxInterval) (n : Nat) :
    (backoffIntervalD algorithm maxInterval init n ≤ maxInterval →
      backoffIntervalD algorithm maxInterval init n ≤
        backoffIntervalD algorithm maxInterval init (n + 1)) ∧
    (maxInterval ≤ backoffIntervalD algorithm maxInterval init n →
      backoffIntervalD algorithm maxInterval init (n + 1) = maxInterval) := by
  have hs₁ := backoffState_succ_eq_interval algorithm maxInterval init n hmax
  have hnn := backoffState_nonneg algorithm maxInterval init halg h0 hmax (n + 1)
  rw [backoffIntervalD_eq algorithm maxInterval init (n + 1) hmax]
  constructor
  · intro h
    by_cases hc : backoffState algorithm maxInterval init (n + 1) < maxInterval
    · rw [if_pos hc, ← hs₁]
      exact halg _ hnn
    · rw [if_neg hc]
      exact h
  · intro h
    have hc : ¬ backoffState algorithm maxInterval init (n + 1) < maxInterval := by
      rw [hs₁]; exact not_lt.mpr h
    rw [if_neg hc]

/-- Witness for C1 (amended) at the counterexample's inputs, one call later. -/
theorem backoff_intervals_bounded_monotone_w :
    (backoffIntervalD doubleBackoff 5 3 1 ≤ 5 →
      backoffIntervalD doubleBackoff 5 3 1 ≤ backoffIntervalD doubleBackoff 5 3 2) ∧
    (5 ≤ backoffIntervalD doubleBackoff 5 3 1 → backoffIntervalD doubleBackoff 5 3 2 = 5) :=
  backoff_intervals_bounded_monotone doubleBackoff 5 3
    (fun d hd => by simp only [doubleBackoff]; omega) (by decide) (by decide) (by decide) 1

/-- Claim C2 counterexample: with `initialInterval = 3 ≤ maxInterval = 5 > 0` and the
doubling DefaultBackoff realization, after one timer-win call the stored
`init` is 6 > `maxInterval`: `algorithm(currentInterval)` is not clamped to
`maxInterval` before being used or stored. -/
theorem backoff_state_claim_false :
    (3 : Int) ≤ 5 ∧ (0 : Int) < 5 ∧
    backoffState doubleBackoff 5 3 1 = 6 ∧
    ¬ backoffState doubleBackoff 5 3 1 ≤ 5 := by
  decide

/-- Claim C2 (amended): on a timer-win call with `maxInterval > 0` the stored state
becomes exactly the interval used; when the state is below `maxInterval` that
interval is the algorithm's raw, unclamped output (so the state can exceed
`maxInterval`); once the state is at or above `maxInterval`, the call uses
exactly `maxInterval` and the stored state becomes exactly `maxInterval`. -/
theorem backoff_state_unclamped_absorbing (algorithm : Int → Int) (maxInterval init : Int)
    (n : Nat) (hmax : 0 < maxInterval) :
    (backoffState algorithm maxInterval init (n + 1) =
      backoffIntervalD algorithm maxInterval init n) ∧
    (backoffState algorithm maxInterval init n < maxInterval →
      backoffIntervalD algorithm maxInterval init n =
        algorithm (backoffState algorithm maxInterval init n)) ∧
    (maxInterval ≤ backoffState algorithm maxInterval init n →
      backoffIntervalD algorithm maxInterval init n = maxInterval ∧
      backoffState algorithm maxInterval init (n + 1) = maxInterval) := by
  refine ⟨backoffState_succ_eq_interval algorithm maxInterval init n hmax, ?_, ?_⟩
  · intro h
    rw [backoffIntervalD_eq algorithm maxInterval init n hmax, if_pos h]
  · intro h
    have hc : ¬ backoffState algorithm maxInterval init n < maxInterval := not_lt.mpr h
    constructor
    · rw [backoffIntervalD_eq algorithm maxInterval init n hmax, if_neg hc]
    · rw [backoffState_succ algorithm maxInterval init n hmax, if_neg hc]

/-- Witness for C2 (amended) at the counterexample's inputs, one call later
(the overshot state 6 ≥ 5 is pulled back to exactly 5). -/
theorem backoff_state_unclamped_absorbing_w :
    backoffState doubleBackoff 5 3 2 = backoffIntervalD doubleBackoff 5 3 1 ∧
    backoffIntervalD doubleBackoff 5 3 1 = 5 ∧
    backoffState doubleBackoff 5 3 2 = 5 :=
  ⟨(backoff_state_unclamped_absorbing doubleBackoff 5 3 1 (by decide)).1,
   (backoff_state_unclamped_absorbing doubleBackoff 5 3 1 (by decide)).2.2 (by decide)⟩

/-- Claim C6 counterexample: `IdleCounter.Wait` has no return value in the source, so
its entire observable outcome is the resulting counter state — and that
outcome is identical for two different token errors. The caller therefore does
not receive the token's own cancellation error through IdleCounter's wait; it
is swallowed (only the two Sleeper variants propagate it). -/
theorem idle_wait_swallows_cancel :
    IdleCounter.Wait (NewIdleCounter 5) (some "context canceled") true =
      IdleCounter.Wait (NewIdleCounter 5) (some "context deadline exceeded") true := by
  decide

/-- Claim C6 (amended): when a wait ends because the token fired, CountSleeper and
BackoffSleeper (with `maxInterval > 0`) return the token's error verbatim —
never wrapped, replaced, or swallowed — while IdleCounter.Wait returns no
error at all: its result does not depend on the token's error. -/
theorem cancellation_propagation (max count init : Int) (e : String)
    (algorithm : Int → Int) (maxInterval : Int) (hmax : 0 < maxInterval)
    (c : IdleCounter) (ctx ctx' : Ctx) (cw : Bool) :
    countSleeperCall max (some e) count = (count, some e) ∧
    backoffSleeperCall algorithm maxInterval (some e) true init = ⟨init, none, some e⟩ ∧
    IdleCounter.Wait c ctx cw = IdleCounter.Wait c ctx' cw := by
  refine ⟨rfl, ?_, rfl⟩
  simp [backoffSleeperCall, hmax.not_le]

/-- Witness for C6 (amended). -/
theorem cancellation_propagation_w :
    countSleeperCall 5 (some "context canceled") 5 = (5, some "context canceled") ∧
    backoffSleeperCall doubleBackoff 5 (some "context canceled") true 3 =
      ⟨3, none, some "context canceled"⟩ ∧
    IdleCounter.Wait (NewIdleCounter 5) (some "context canceled") true =
      IdleCounter.Wait (NewIdleCounter 5) none true :=
  cancellation_propagation 5 5 3 "context canceled" doubleBackoff 5 (by decide)
    (NewIdleCounter 5) (some "context canceled") none true

/-- Claim C7 counterexample: immediately after construction (`NewIdleCounter`,
utils.go:225-234) the timer has been created and stopped, so `job = 0` while
the timer is NOT armed — "armed exactly when jobCount == 0" fails in the
post-construction state. -/
theorem idle_timer_armed_iff_claim_false :
    ¬ (((NewIdleCounter 5).tmrArmed = true) ↔ (NewIdleCounter 5).job = 0) := by
  decide

lemma idle_inv_step (c : IdleCounter) (op : IdleOp) (c1 : IdleCounter)
    (h : idleStep c op = .ok c1) (hc : c.tmrArmed = true → c.job = 0) :
    c1.tmrArmed = true → c1.job = 0 := by
  cases op with
  | add =>
    simp only [idleStep, Except.ok.injEq] at h
    subst h
    intro ha
    simp [IdleCounter.Add] at ha
  | doneOp =>
    simp only [idleStep, IdleCounter.Done] at h
    by_cases hneg : c.job - 1 < 0
    · rw [if_pos hneg] at h
      cases h
    · rw [if_neg hneg] at h
      by_cases hz : c.job - 1 = 0
      · rw [if_pos hz] at h
        simp only [Except.ok.injEq] at h
        subst h
        intro _
        exact hz
      · rw [if_neg hz] at h
        simp only [Except.ok.injEq] at h
        subst h
        intro ha
        simp only at ha
        exact absurd (hc ha) (by omega)
  | wait ctx cw =>
    simp only [idleStep, Except.ok.injEq] at h
    subst h
    intro ha
    simp [IdleCounter.Wait] at ha

lemma idle_inv_run (c : IdleCounter) (ops : List IdleOp) (c1 : IdleCounter)
    (h : idleRun c ops = .ok c1) (hc : c.tmrArmed = true → c.job = 0) :
    c1.tmrArmed = true → c1.job = 0 := by
  induction ops generalizing c with
  | nil =>
    simp only [idleRun, Except.ok.injEq] at h
    subst h
    exact hc
  | cons op ops ih =>
    rw [idleRun] at h
    cases hs : idleStep c op with
    | error e => rw [hs] at h; cases h
    | ok c2 =>
      rw [hs] at h
      exact ih c2 h (idle_inv_step c op c2 hs hc)

/-- Claim C7 (amended): every Add disarms the timer, and in every state reachable by
any sequence of Add/Done/Wait operations from a fresh counter, the timer being
armed implies `jobCount = 0`. The converse direction of the claim fails: in
the state immediately after construction (and whenever the timer has fired or
been stopped) the count is 0 with the timer disarmed — the timer is armed only
when Done returns the count to zero or Wait begins with a zero count. -/
theorem idle_timer_armed_only_when_zero :
    (∀ c : IdleCounter, c.Add.tmrArmed = false) ∧
    (∀ (d : Int) (ops : List IdleOp) (c : IdleCounter),
      idleRun (NewIdleCounter d) ops = .ok c → c.tmrArmed = true → c.job = 0) := by
  refine ⟨fun c => rfl, fun d ops c h => idle_inv_run (NewIdleCounter d) ops c h ?_⟩
  intro h0
  simp [NewIdleCounter] at h0

/-- Witness for C7 (amended): after Add then Done the timer is armed and the
count is back to 0. -/
theorem idle_timer_armed_only_when_zero_w :
    (NewIdleCounter 5).Add.tmrArmed = false ∧
    (IdleCounter.mk 0 5 true).job = 0 :=
  ⟨idle_timer_armed_only_when_zero.1 (NewIdleCounter 5),
   idle_timer_armed_only_when_zero.2 5 [IdleOp.add, IdleOp.doneOp]
     (IdleCounter.mk 0 5 true) rfl rfl⟩
